import Mathlib

/-
  Verification development for the claude-code-api-server repository.

  Shallow embedding of the subprocess execution engine:
  - src/claude-executor.js           (buffered executor)
  - src/claude-executor-streaming.js (streaming bridge)
  - src/server.js                    (Anthropic projection of the OpenAI response)
  - the Express middleware (validateChatCompletionRequest)

  JavaScript values flowing through the executor are modelled by the
  inductive type Json below.  JSON numbers are modelled as integers:
  every value appearing in the claims and in the concrete scenarios is
  integral, and the executor never performs fractional arithmetic.
  The JS notion of undefined is conflated with null where the executor
  reads an absent field through a non-null base: both are falsy and both
  make optional-chaining lookups yield nothing.  Property access on a
  null base, by contrast, throws a TypeError in JS.  The buffered
  response translation can reach such an access in exactly two places —
  the whole backend value being null (claudeResponse.result), and a null
  entry of a content-block list (block.type inside the filter callback) —
  and these are modelled by the Except-valued variants extractContentE
  and convertToOpenAiFormatE below; the total functions extractContent
  and convertToOpenAiFormat are the projections of the source on its
  non-throwing domain, related to the Except variants by proved lemmas.
  In the streaming bridge, any throw inside the per-line handler is
  caught by the same try/catch that guards JSON.parse and the line is
  skipped: for a null event the total model returns nothing as well, so
  the outcomes coincide; the one remaining divergence, a null entry
  inside an assistant message's block list, is noted at
  assistantContent and is not reachable in any theorem below.
-/

namespace ClaudeCodeApi

/-- JSON/JavaScript value model.  Object fields keep insertion order; a
duplicate key is resolved to the last occurrence, as JSON.parse does. -/
inductive Json where
  | null
  | bool (b : Bool)
  | num (n : Int)
  | str (s : String)
  | arr (elems : List Json)
  | obj (fields : List (String × Json))

/-- JavaScript truthiness of a value: null/undefined, false, 0 and the
empty string are falsy; every array and object is truthy. -/
def jsTruthy : Json → Bool
  | .null => false
  | .bool b => b
  | .num n => n != 0
  | .str s => s != ""
  | .arr _ => true
  | .obj _ => true

/-- Property presence: field lookup on an object (last occurrence wins,
matching JS object construction); absent on every non-object. -/
def jfind : Json → String → Option Json
  | .obj fs, k => fs.reverse.lookup k
  | _, _ => none

/-- Property access as JS evaluates it on a non-null base: an absent
field reads as a falsy nothing (undefined, modelled as null).  Access on
a null base throws in JS; the two sites where the buffered translation
can reach one are modelled by extractContentE, and every other use of
this function has a base that is provably non-null on the paths the
source evaluates it, or sits behind a catch that discards the line (the
streaming per-line handler). -/
def jget (j : Json) (k : String) : Json :=
  (jfind j k).getD .null

mutual

/-- String coercion used by JS string concatenation and Array.join.
String(null) is "null"; arrays stringify as their comma-join where a
null/undefined element stringifies to the empty string; objects
stringify to the fixed object placeholder. -/
def jsToString : Json → String
  | .null => "null"
  | .bool b => if b then "true" else "false"
  | .num n => toString n
  | .str s => s
  | .arr xs => String.intercalate "," (jsJoinParts xs)
  | .obj _ => "[object Object]"

/-- Element rendering of Array.prototype.join: null/undefined elements
become the empty string, everything else is string-coerced. -/
def jsJoinParts : List Json → List String
  | [] => []
  | .null :: rest => "" :: jsJoinParts rest
  | j :: rest => jsToString j :: jsJoinParts rest

end

/-- Rendering of one element under Array.prototype.join: null/undefined
becomes the empty string, everything else is string-coerced. -/
def jsJoinElem : Json → String
  | .null => ""
  | j => jsToString j

/-- Left brace character, kept out of string literals. -/
def lbrace : Char := Char.ofNat 123

/-- Right brace character, kept out of string literals. -/
def rbrace : Char := Char.ofNat 125

/-- Escaping of one character inside a JSON string literal, as
JSON.stringify performs it for the characters the executor emits. -/
def jsonEscapeChar (c : Char) : String :=
  if c = '"' then "\\\""
  else if c = '\\' then "\\\\"
  else if c = '\n' then "\\n"
  else if c = '\t' then "\\t"
  else if c = '\r' then "\\r"
  else String.singleton c

/-- Escaping of a JSON string body. -/
def jsonEscape (s : String) : String :=
  String.join (s.toList.map jsonEscapeChar)

mutual

/-- JSON.stringify on the value model: no whitespace, fields in
insertion order. -/
def stringify : Json → String
  | .null => "null"
  | .bool b => if b then "true" else "false"
  | .num n => toString n
  | .str s => "\"" ++ jsonEscape s ++ "\""
  | .arr xs => "[" ++ String.intercalate "," (stringifyElems xs) ++ "]"
  | .obj fs => String.singleton lbrace ++ String.intercalate "," (stringifyFields fs) ++ String.singleton rbrace

/-- Serialized array elements. -/
def stringifyElems : List Json → List String
  | [] => []
  | j :: rest => stringify j :: stringifyElems rest

/-- Serialized object fields. -/
def stringifyFields : List (String × Json) → List String
  | [] => []
  | (k, v) :: rest => ("\"" ++ jsonEscape k ++ "\":" ++ stringify v) :: stringifyFields rest

end

/-- Whitespace skipping of the JSON grammar. -/
def skipWs : List Char → List Char
  | c :: rest => if c = ' ' ∨ c = '\n' ∨ c = '\t' ∨ c = '\r' then skipWs rest else c :: rest
  | [] => []

/-- Hexadecimal digit value, for unicode escapes. -/
def hexVal (c : Char) : Option Nat :=
  if '0' ≤ c ∧ c ≤ '9' then some (c.toNat - 48)
  else if 'a' ≤ c ∧ c ≤ 'f' then some (c.toNat - 87)
  else if 'A' ≤ c ∧ c ≤ 'F' then some (c.toNat - 55)
  else none

/-- Body of a JSON string literal, after the opening quote; fuel-driven. -/
def parseStringBody : Nat → List Char → String → Option (String × List Char)
  | 0, _, _ => none
  | Nat.succ fuel, cs, acc =>
    match cs with
    | [] => none
    | c :: rest =>
      if c = '"' then some (acc, rest)
      else if c = '\\' then
        match rest with
        | [] => none
        | d :: r2 =>
          if d = '"' then parseStringBody fuel r2 (acc.push '"')
          else if d = '\\' then parseStringBody fuel r2 (acc.push '\\')
          else if d = '/' then parseStringBody fuel r2 (acc.push '/')
          else if d = 'n' then parseStringBody fuel r2 (acc.push '\n')
          else if d = 't' then parseStringBody fuel r2 (acc.push '\t')
          else if d = 'r' then parseStringBody fuel r2 (acc.push '\r')
          else if d = 'b' then parseStringBody fuel r2 (acc.push (Char.ofNat 8))
          else if d = 'f' then parseStringBody fuel r2 (acc.push (Char.ofNat 12))
          else if d = 'u' then
            match r2 with
            | h1 :: h2 :: h3 :: h4 :: r3 =>
              match hexVal h1, hexVal h2, hexVal h3, hexVal h4 with
              | some a, some b, some c2, some d2 =>
                  parseStringBody fuel r3 (acc.push (Char.ofNat (((a * 16 + b) * 16 + c2) * 16 + d2)))
              | _, _, _, _ => none
            | _ => none
          else none
      else parseStringBody fuel rest (acc.push c)

/-- Greedy run of decimal digits. -/
def parseNatDigits : Nat → List Char → Nat → Option (Nat × List Char)
  | 0, _, _ => none
  | Nat.succ fuel, cs, acc =>
    match cs with
    | [] => some (acc, [])
    | c :: rest =>
      if c.isDigit then parseNatDigits fuel rest (acc * 10 + (c.toNat - 48))
      else some (acc, c :: rest)

/-- A number may not continue with a fraction or exponent: the model
restricts JSON numbers to integers (see the header comment). -/
def numTermOk : List Char → Bool
  | [] => true
  | c :: _ => ¬(c = '.' ∨ c = 'e' ∨ c = 'E')

mutual

/-- Recursive-descent JSON value parser (the model of JSON.parse), fuel-driven. -/
def parseValue : Nat → List Char → Option (Json × List Char)
  | 0, _ => none
  | Nat.succ fuel, cs0 =>
    match skipWs cs0 with
    | [] => none
    | c :: rest =>
      if c = lbrace then
        match skipWs rest with
        | [] => none
        | d :: r2 =>
          if d = rbrace then some (.obj [], r2)
          else (parseFields fuel (d :: r2)).map (fun p => (.obj p.1, p.2))
      else if c = '[' then
        match skipWs rest with
        | [] => none
        | d :: r2 =>
          if d = ']' then some (.arr [], r2)
          else (parseElems fuel (d :: r2)).map (fun p => (.arr p.1, p.2))
      else if c = '"' then
        (parseStringBody (Nat.succ fuel) rest "").map (fun p => (.str p.1, p.2))
      else if c = 'n' then
        match rest with
        | 'u' :: 'l' :: 'l' :: r => some (.null, r)
        | _ => none
      else if c = 't' then
        match rest with
        | 'r' :: 'u' :: 'e' :: r => some (.bool true, r)
        | _ => none
      else if c = 'f' then
        match rest with
        | 'a' :: 'l' :: 's' :: 'e' :: r => some (.bool false, r)
        | _ => none
      else if c = '-' then
        match rest with
        | [] => none
        | d :: r2 =>
          if d.isDigit then
            match parseNatDigits (Nat.succ fuel) r2 (d.toNat - 48) with
            | some (n, r3) => if numTermOk r3 then some (.num (-(Int.ofNat n)), r3) else none
            | none => none
          else none
      else if c.isDigit then
        match parseNatDigits (Nat.succ fuel) rest (c.toNat - 48) with
        | some (n, r3) => if numTermOk r3 then some (.num (Int.ofNat n), r3) else none
        | none => none
      else none

/-- Comma-separated array elements up to the closing bracket. -/
def parseElems : Nat → List Char → Option (List Json × List Char)
  | 0, _ => none
  | Nat.succ fuel, cs =>
    match parseValue fuel cs with
    | none => none
    | some (v, r) =>
      match skipWs r with
      | [] => none
      | c :: r2 =>
        if c = ',' then (parseElems fuel r2).map (fun p => (v :: p.1, p.2))
        else if c = ']' then some ([v], r2)
        else none

/-- Comma-separated object fields up to the closing brace. -/
def parseFields : Nat → List Char → Option (List (String × Json) × List Char)
  | 0, _ => none
  | Nat.succ fuel, cs =>
    match skipWs cs with
    | [] => none
    | c :: rest =>
      if c = '"' then
        match parseStringBody (Nat.succ fuel) rest "" with
        | none => none
        | some (k, r) =>
          match skipWs r with
          | [] => none
          | d :: r2 =>
            if d = ':' then
              match parseValue fuel r2 with
              | none => none
              | some (v, r3) =>
                match skipWs r3 with
                | [] => none
                | e :: r4 =>
                  if e = ',' then (parseFields fuel r4).map (fun p => ((k, v) :: p.1, p.2))
                  else if e = rbrace then some ([(k, v)], r4)
                  else none
            else none
      else none

end

/-- JSON.parse on a whole string: one value, optionally surrounded by
whitespace; anything else is a parse failure. -/
def jsonParse (s : String) : Option Json :=
  match parseValue (3 * s.length + 16) s.toList with
  | some (v, rest) => if (skipWs rest).isEmpty then some v else none
  | none => none

/-
  Request model.  The middleware guarantees role and content are strings
  on the validated path; the executor reads them as strings throughout.
  max_tokens and temperature arrive as arbitrary JSON values (absent is
  modelled as none).
-/

/-- One chat turn of the inbound request. -/
structure Msg where
  role : String
  content : String

/-- The request object as the executor reads it. -/
structure ChatRequest where
  model : Option String
  messages : List Msg
  max_tokens : Option Json
  temperature : Option Json

/-- Configuration values consumed by the executor (src/config). -/
structure Config where
  defaultModel : String

/-- Truthiness of an optional field read (absent is falsy). -/
def jsTruthyOpt : Option Json → Bool
  | none => false
  | some j => jsTruthy j

/-- Model selection: request.model with JS or-fallback to the configured
default (claude-executor.js line 111). -/
def effectiveModel (cfg : Config) (m : Option String) : String :=
  match m with
  | some s => if s = "" then cfg.defaultModel else s
  | none => cfg.defaultModel

/-- The settings object serialized behind the settings flag
(claude-executor.js lines 117-123): maxTokens enters when truthy,
temperature whenever the field is present. -/
def settingsObject (req : ChatRequest) : Json :=
  .obj ((match req.max_tokens with
         | some v => if jsTruthy v then [("maxTokens", v)] else []
         | none => []) ++
        (match req.temperature with
         | some v => [("temperature", v)]
         | none => []))

/-- Guard of the settings flag (claude-executor.js line 116):
request.max_tokens truthy, or request.temperature not undefined. -/
def settingsFlagCondition (req : ChatRequest) : Bool :=
  jsTruthyOpt req.max_tokens || req.temperature.isSome

/-- CLI argument vector construction, claude-executor.js lines 90-129
(the method buildClaudeArgs). -/
def buildClaudeArgs (cfg : Config) (req : ChatRequest)
    (input_format output_format : String) : List String :=
  ["--print", "--dangerously-skip-permissions"]
  ++ (if input_format ≠ "text" then ["--input-format", input_format] else [])
  ++ ["--output-format", output_format]
  ++ (if output_format = "stream-json" then ["--verbose"] else [])
  ++ ["--model", effectiveModel cfg req.model]
  ++ (if settingsFlagCondition req then
        ["--settings", stringify (settingsObject req)] else [])

/-- Rendering of one turn in text input mode (claude-executor.js lines
150-157): system and assistant turns get a label prefix, user turns are
verbatim, any other role falls through all branches and is omitted. -/
def renderTextTurn (m : Msg) : Option String :=
  if m.role = "system" then some ("System: " ++ m.content)
  else if m.role = "user" then some m.content
  else if m.role = "assistant" then some ("Assistant: " ++ m.content)
  else none

/-- Text input mode payload (claude-executor.js lines 148-159): rendered
turns joined with a blank-line separator. -/
def prepareInputText (messages : List Msg) : String :=
  String.intercalate "\n\n" (messages.filterMap renderTextTurn)

/-- Line-protocol input payload (claude-executor.js lines 136-146): one
JSON object per turn, user turns tagged user and all others control. -/
def prepareInputStreamJson (messages : List Msg) : String :=
  String.intercalate "\n" (messages.map (fun m =>
    stringify (.obj [("type", .str (if m.role = "user" then "user" else "control")),
                     ("role", .str m.role),
                     ("content", .str m.content)])))

/-- Input preparation dispatch, claude-executor.js lines 134-161 (the
method prepareInput). -/
def prepareInput (req : ChatRequest) (input_format : String) : String :=
  if input_format = "stream-json" then prepareInputStreamJson req.messages
  else prepareInputText req.messages

/-- An execution-layer failure is a rejected promise carrying a message. -/
structure ExecError where
  message : String

/-- The pre-spawn phase of execute (claude-executor.js lines 47-53):
argument construction followed by input preparation.  Neither helper has
a failure path, so the phase always reaches the spawn with its argument
vector and stdin payload. -/
def executorPreSpawn (cfg : Config) (req : ChatRequest)
    (input_format output_format : String) :
    Except ExecError (List String × String) :=
  .ok (buildClaudeArgs cfg req input_format output_format,
       prepareInput req input_format)

/-- Buffered-mode close handler, claude-executor.js lines 228-251: a
non-zero exit rejects with the exit code and stderr (falling back to
stdout, then to a fixed message); exit zero parses stdout as one JSON
value, rejecting on parse failure. -/
def closeHandlerResult (code : Int) (stdout stderr : String) :
    Except ExecError Json :=
  if code ≠ 0 then
    .error ⟨"Claude process exited with code " ++ toString code ++ ": " ++
            (if stderr ≠ "" then stderr
             else if stdout ≠ "" then stdout
             else "Unknown error")⟩
  else
    match jsonParse stdout with
    | some v => .ok v
    | none => .error ⟨"Failed to parse Claude response"⟩

/-- Whether a content block is text-typed (strict equality with the
string text, as in block.type === in the source). -/
def isTextType (b : Json) : Bool :=
  match jget b "type" with
  | .str s => s = "text"
  | _ => false

/-- Buffered extraction of a content-block list (claude-executor.js
lines 314-318): text-typed blocks, their text fields, joined with a
newline separator by Array.prototype.join. -/
def contentBlocksText (blocks : List Json) : String :=
  String.intercalate "\n"
    ((blocks.filter isTextType).map (fun b => jsJoinElem (jget b "text")))

/-- Content extraction of the buffered response translation
(claude-executor.js lines 304-326), with the JS truthiness guards of
each else-if branch.  This is the projection of the source on its
non-throwing domain: a null backend value and a null content-block entry
make the source throw a TypeError, which extractContentE below models;
on every input where extractContentE returns, this function agrees with
it (proved below). -/
def extractContent : Json → Json
  | .str s => .str s
  | r =>
    let res := jget r "result"
    if jsTruthy res then res
    else
      let c := jget r "content"
      if jsTruthy c then
        match c with
        | .arr blocks => .str (contentBlocksText blocks)
        | _ => c
      else
        let t := jget r "text"
        if jsTruthy t then t
        else
          let mc := jget (jget r "message") "content"
          if jsTruthy mc then mc else .str ""

/-- Token count read (claude-executor.js lines 329-330): optional-chained
usage field with or-default zero.  The backend protocol carries numeric
token counts; non-numeric values are outside the modelled domain. -/
def usageTokens (r : Json) (f : String) : Int :=
  match jget (jget r "usage") f with
  | .num n => n
  | _ => 0

/-- The OpenAI-shaped response object the buffered executor returns
(claude-executor.js lines 333-353).  choices always holds exactly one
entry; its fields are inlined here. -/
structure OpenAiResponse where
  id : String
  object : String
  created : Nat
  model : String
  content : Json
  finish_reason : Json
  prompt_tokens : Int
  completion_tokens : Int
  total_tokens : Int

/-- The buffered response translation, claude-executor.js lines 303-354
(the method convertToOpenAiFormat).  nowMs is the Date.now() reading the
source takes while building the object. -/
def convertToOpenAiFormat (claudeResponse : Json) (model requestId : String)
    (nowMs : Nat) : OpenAiResponse :=
  { id := "chatcmpl-" ++ requestId
    object := "chat.completion"
    created := nowMs / 1000
    model := model
    content := extractContent claudeResponse
    finish_reason :=
      (let sr := jget claudeResponse "stop_reason"
       if jsTruthy sr then sr else .str "stop")
    prompt_tokens := usageTokens claudeResponse "input_tokens"
    completion_tokens := usageTokens claudeResponse "output_tokens"
    total_tokens := usageTokens claudeResponse "input_tokens" +
                    usageTokens claudeResponse "output_tokens" }

/-- JavaScript runtime failure observable in the translation: property
access on a null base throws a TypeError. -/
inductive JsError where
  | typeError
deriving DecidableEq

/-- Array.prototype.filter with the callback of claude-executor.js line
316 (block.type with a strict comparison against the string text): the
callback runs over every element, and a null element makes the access
block.type throw a TypeError; on every other element it is the safe
isTextType test. -/
def filterTextTypesE : List Json → Except JsError (List Json)
  | [] => .ok []
  | .null :: _ => .error .typeError
  | b :: rest =>
    (filterTextTypesE rest).map (fun bs => if isTextType b then b :: bs else bs)

/-- Content extraction with the source's error behaviour
(claude-executor.js lines 304-326): the very first property access
claudeResponse.result (line 309) throws a TypeError on a null backend
value, the filter callback (line 316) throws on a null entry of a
content-block list, and every other path returns the value
extractContent computes. -/
def extractContentE : Json → Except JsError Json
  | .str s => .ok (.str s)
  | .null => .error .typeError
  | r =>
    let res := jget r "result"
    if jsTruthy res then .ok res
    else
      let c := jget r "content"
      if jsTruthy c then
        match c with
        | .arr blocks =>
          (filterTextTypesE blocks).map (fun bs =>
            .str (String.intercalate "\n" (bs.map (fun b => jsJoinElem (jget b "text")))))
        | _ => .ok c
      else
        let t := jget r "text"
        if jsTruthy t then .ok t
        else
          let mc := jget (jget r "message") "content"
          if jsTruthy mc then .ok mc else .ok (.str "")

/-- The buffered response translation with the source's error behaviour:
a TypeError raised during content extraction propagates out of the
method (claude-executor.js line 303); otherwise the OpenAI-shaped
response is built as in convertToOpenAiFormat, the remaining property
accesses (stop_reason, optional-chained usage) being safe on the
non-null base that a successful extraction guarantees. -/
def convertToOpenAiFormatE (claudeResponse : Json) (model requestId : String)
    (nowMs : Nat) : Except JsError OpenAiResponse :=
  match extractContentE claudeResponse with
  | .error e => .error e
  | .ok content =>
    .ok { id := "chatcmpl-" ++ requestId
          object := "chat.completion"
          created := nowMs / 1000
          model := model
          content := content
          finish_reason :=
            (let sr := jget claudeResponse "stop_reason"
             if jsTruthy sr then sr else .str "stop")
          prompt_tokens := usageTokens claudeResponse "input_tokens"
          completion_tokens := usageTokens claudeResponse "output_tokens"
          total_tokens := usageTokens claudeResponse "input_tokens" +
                          usageTokens claudeResponse "output_tokens" }

/-
  Process-termination model.  The two cancellation triggers are embedded
  as the signal sequences their handlers emit, keyed on the state flags
  the source consults before each kill call.
-/

/-- POSIX signals the executor sends. -/
inductive Signal where
  | sigterm
  | sigkill
deriving DecidableEq

/-- Fixed escalation grace of the timeout handler, claude-executor.js
line 193 (milliseconds). -/
def timeoutGraceMs : Nat := 5000

/-- Signals sent by the timeout handler (claude-executor.js lines
182-198): nothing when the process already exited; otherwise a graceful
signal, and a forceful one 5000 ms later when the process still has not
exited. -/
def timeoutHandlerSignals (exitedAtTimeout exitedAtGrace : Bool) : List Signal :=
  if exitedAtTimeout then []
  else Signal.sigterm :: (if exitedAtGrace then [] else [Signal.sigkill])

/-- Rejection raised by the timeout handler at expiry (claude-executor.js
line 195), none when the process already exited. -/
def timeoutRejection (exitedAtTimeout : Bool) (timeoutMs : Nat) : Option String :=
  if exitedAtTimeout then none
  else some ("Claude process timeout after " ++ toString timeoutMs ++ "ms")

/-- Signals sent by the client-disconnect handler of the streaming bridge
(claude-executor-streaming.js lines 215-220): one graceful signal when
the process is not already killed, and nothing else. -/
def disconnectHandlerSignals (processKilled : Bool) : List Signal :=
  if processKilled then [] else [Signal.sigterm]

/-
  Streaming Bridge (src/claude-executor-streaming.js).
-/

/-- One outbound push-frame body of the assistant-delta kind
(claude-executor-streaming.js lines 100-112). -/
structure StreamChunk where
  id : String
  object : String
  created : Nat
  model : String
  deltaContent : String
  finish_reason : Json

/-- Whitespace test of String.prototype.trim for the characters the
line protocol can carry. -/
def wsChar (c : Char) : Bool :=
  c = ' ' ∨ c = '\t' ∨ c = '\n' ∨ c = '\r'

/-- String.prototype.trim: leading and trailing whitespace removed. -/
def jsTrim (s : String) : String :=
  (((s.toList.dropWhile wsChar).reverse.dropWhile wsChar).reverse).asString

/-- String.prototype.split on the newline separator: every occurrence
cuts, empty pieces included. -/
def splitNlAux : List Char → List Char → List String
  | [], acc => [acc.reverse.asString]
  | c :: rest, acc =>
    if c = '\n' then acc.reverse.asString :: splitNlAux rest []
    else splitNlAux rest (c :: acc)

/-- The line list a chunk decomposes into. -/
def splitNl (s : String) : List String :=
  splitNlAux s.toList []

/-- Text accumulated from an assistant message (claude-executor-streaming.js
lines 90-97): string concatenation of the text fields of text-typed
blocks, empty when the content field is not a list.  Two corner inputs
diverge from the source and occur in no theorem below: a text-typed
block lacking a text field renders here as the string null where JS
string concatenation renders undefined, and a null entry of the block
list throws in the source — the throw is caught by the per-line
try/catch, which drops the whole event, where this total model keeps
the frame. -/
def assistantContent (message : Json) : String :=
  match jget message "content" with
  | .arr blocks =>
      blocks.foldl (fun acc b =>
        if isTextType b then acc ++ jsToString (jget b "text") else acc) ""
  | _ => ""

/-- Handling of one complete stdout line (claude-executor-streaming.js
lines 79-138): blank lines are skipped, lines that fail JSON.parse are
logged and skipped, assistant events with a truthy message become one
push-frame, system/result events are logged only, anything else is
ignored.  A null event makes event.type throw in the source; the
surrounding try/catch skips the line, which coincides with the
nothing-forwarded outcome this total model gives a null event. -/
def processLine (requestId model : String) (created : Nat) (line : String) :
    Option StreamChunk :=
  if jsTrim line ≠ "" then
    match jsonParse line with
    | some event =>
      if (match jget event "type" with | .str s => s = "assistant" | _ => false)
          && jsTruthy (jget event "message") then
        let message := jget event "message"
        some { id := "chatcmpl-" ++ requestId
               object := "chat.completion.chunk"
               created := created
               model := model
               deltaContent := assistantContent message
               finish_reason :=
                 (let sr := jget message "stop_reason"
                  if jsTruthy sr then sr else .null) }
      else none
    | none => none
  else none

/-- The stdout data handler (claude-executor-streaming.js lines 76-140):
each arriving chunk is split on newlines on its own, with no carry-over
of a partial trailing line to the next chunk. -/
def handleStdoutChunk (requestId model : String) (created : Nat)
    (chunk : String) : List StreamChunk :=
  (splitNl chunk).filterMap (processLine requestId model created)

/-- All push-frames produced from a run of stdout chunks, in arrival
order. -/
def streamedChunks (requestId model : String) (created : Nat)
    (chunks : List String) : List StreamChunk :=
  (chunks.map (handleStdoutChunk requestId model created)).flatten

/-- One write to the SSE transport. -/
inductive Frame where
  | data (chunk : StreamChunk)
  | errorData (payload : Json)
  | done

/-- Error payload of a non-zero exit (claude-executor-streaming.js lines
176-182). -/
def executionErrorPayload (code : Int) (stderrData : String) : Json :=
  .obj [("error", .obj
    [("message", .str ("Claude process exited with code " ++ toString code ++
                       ": " ++ stderrData)),
     ("type", .str "execution_error"),
     ("code", .num code)])]

/-- Frames written by the close handler (claude-executor-streaming.js
lines 164-195): the error frame exactly when the exit code is non-zero,
then the sentinel, unconditionally. -/
def closeHandlerFrames (code : Int) (stderrData : String) : List Frame :=
  (if code ≠ 0 then [Frame.errorData (executionErrorPayload code stderrData)]
   else []) ++ [Frame.done]

/-- Every frame written over one streaming invocation whose subprocess
exits: the data frames of the stdout handler followed by the close
handler frames. -/
def sessionFrames (requestId model : String) (created : Nat)
    (chunks : List String) (code : Int) (stderrData : String) : List Frame :=
  (streamedChunks requestId model created chunks).map Frame.data
  ++ closeHandlerFrames code stderrData

/-- Frame classifier: the sentinel. -/
def isDone : Frame → Bool
  | .done => true
  | _ => false

/-- Frame classifier: an error-shaped frame. -/
def isErrorFrame : Frame → Bool
  | .errorData _ => true
  | _ => false

/-- JSON body of an assistant-delta frame (claude-executor-streaming.js
lines 100-112). -/
def sseChunkJson (c : StreamChunk) : Json :=
  .obj [("id", .str c.id), ("object", .str c.object),
        ("created", .num (Int.ofNat c.created)), ("model", .str c.model),
        ("choices", .arr [.obj
          [("index", .num 0),
           ("delta", .obj [("content", .str c.deltaContent)]),
           ("finish_reason", c.finish_reason)]])]

/-- Wire text of one frame: data-prefixed JSON with a blank-line ending,
and the literal DONE sentinel (claude-executor-streaming.js lines 115,
176-186). -/
def renderFrame : Frame → String
  | .data c => "data: " ++ stringify (sseChunkJson c) ++ "\n\n"
  | .errorData p => "data: " ++ stringify p ++ "\n\n"
  | .done => "data: [DONE]\n\n"

/-- Streaming-mode text input conversion, claude-executor-streaming.js
lines 227-243 (the method convertMessagesToText): its own copy of the
role-labelled rendering. -/
def renderStreamingTurn (m : Msg) : Option String :=
  if m.role = "system" then some ("System: " ++ m.content)
  else if m.role = "user" then some m.content
  else if m.role = "assistant" then some ("Assistant: " ++ m.content)
  else none

/-- Streaming-mode text payload: rendered turns joined with a blank-line
separator. -/
def convertMessagesToText (messages : List Msg) : String :=
  String.intercalate "\n\n" (messages.filterMap renderStreamingTurn)

/-
  HTTP layer (middleware and src/server.js).
-/

/-- Outcome of the chat-completions request validator. -/
inductive ValidationResult where
  | rejected (code : String)
  | accepted

/-- Per-message check of validateChatCompletionRequest (middleware lines
418-439): falsy role or content, then role outside the three known
roles. -/
def validateMessage (m : Msg) : Option String :=
  if m.role = "" ∨ m.content = "" then some "invalid_message_format"
  else if ¬(m.role = "system" ∨ m.role = "user" ∨ m.role = "assistant") then
    some "invalid_role"
  else none

/-- First failure over the message list, in order. -/
def validateMessages : List Msg → ValidationResult
  | [] => .accepted
  | m :: rest =>
    match validateMessage m with
    | some c => .rejected c
    | none => validateMessages rest

/-- The request validator (middleware lines 403-451): a missing,
non-array or empty messages field is rejected with the invalid_messages
code before the executor is ever invoked; none models a body whose
messages field is absent or not an array. -/
def validateChatCompletionRequest (messages : Option (List Msg)) :
    ValidationResult :=
  match messages with
  | none => .rejected "invalid_messages"
  | some [] => .rejected "invalid_messages"
  | some ms => validateMessages ms

/-- Strict JS equality of a value with the string stop, as the
v1/messages handler tests finish_reason (src/server.js line 251). -/
def isStopFinish : Json → Bool
  | .str s => s = "stop"
  | _ => false

/-- The Anthropic-shaped projection built by the v1/messages handler
(src/server.js lines 240-257).  content is the one-element text-block
list; its text field is inlined here. -/
structure AnthropicResponse where
  id : String
  type : String
  role : String
  text : Json
  model : String
  stop_reason : String
  usage_input_tokens : Int
  usage_output_tokens : Int

/-- Projection from the OpenAI-shaped response to the Anthropic shape,
src/server.js lines 240-257. -/
def anthropicOfOpenAi (r : OpenAiResponse) : AnthropicResponse :=
  { id := "msg-" ++ r.id
    type := "message"
    role := "assistant"
    text := if jsTruthy r.content then r.content else .str ""
    model := r.model
    stop_reason := if isStopFinish r.finish_reason then "end_turn" else "max_tokens"
    usage_input_tokens := r.prompt_tokens
    usage_output_tokens := r.completion_tokens }

/-
  Spec-side definitions: statements of claims as written, amended
  characterizations to be compared with the source embeddings, and
  concrete fixtures used by counterexamples and scenarios.
-/

/-- Substring containment, used to state that an error message carries a
piece of diagnostic text. -/
def strContains (s sub : String) : Prop :=
  ∃ p q, s.data = p ++ sub.data ++ q

/-- Content extraction exactly as claim C1 words it: priority by field
presence, and a list of typed blocks contributes the plain concatenation
of the text of its text-typed blocks. -/
def extractContentClaimed (r : Json) : Json :=
  match r with
  | .str s => .str s
  | _ =>
    match jfind r "result" with
    | some v => v
    | none =>
      match jfind r "content" with
      | some (.arr blocks) =>
          .str (String.join ((blocks.filter isTextType).map
                 (fun b => jsJoinElem (jget b "text"))))
      | some v => v
      | none =>
        match jfind r "text" with
        | some v => v
        | none =>
          match jfind (jget r "message") "content" with
          | some v => v
          | none => .str ""

/-- Content extraction as amended: the first candidate whose guard value
is truthy wins; a candidate list renders as its text-typed blocks joined
with a newline separator; otherwise the content is the empty string. -/
def firstTruthyGuarded : List (Bool × Json) → Json
  | [] => .str ""
  | (g, v) :: rest => if g then v else firstTruthyGuarded rest

/-- The guarded candidate list of the amended claim C1: result, content
(rendered), text, nested message content — each guarded by the
truthiness of the field as read. -/
def amendedCandidates (r : Json) : List (Bool × Json) :=
  [(jsTruthy (jget r "result"), jget r "result"),
   (jsTruthy (jget r "content"),
    match jget r "content" with
    | .arr blocks =>
        .str (String.intercalate "\n" ((blocks.filter isTextType).map
               (fun b => jsJoinElem (jget b "text"))))
    | c => c),
   (jsTruthy (jget r "text"), jget r "text"),
   (jsTruthy (jget (jget r "message") "content"), jget (jget r "message") "content")]

/-- The amended-claim statement of content extraction. -/
def extractContentAmendedSpec : Json → Json
  | .str s => .str s
  | r => firstTruthyGuarded (amendedCandidates r)

/-- The termination path claim C4 asserts for both cancellation
triggers: a graceful signal first, then a forceful kill exactly when the
subprocess is still running after the grace period. -/
def escalationPathSpec (stillRunningAfterGrace : Bool) : List Signal :=
  Signal.sigterm :: (if stillRunningAfterGrace then [Signal.sigkill] else [])

/-- The response with its clock-derived field blanked, used to compare
two conversion runs taken at different times. -/
def dropCreated (r : OpenAiResponse) : OpenAiResponse :=
  { r with created := 0 }

/-- A configuration with the shipped default model alias. -/
def cfg0 : Config := { defaultModel := "sonnet" }

/-- The backend output of the arithmetic scenario in claim C1. -/
def rScen : Json :=
  .obj [("result", .str "4"),
        ("usage", .obj [("input_tokens", .num 5), ("output_tokens", .num 1)])]

/-- A content block list with two text blocks, distinguishing newline
join from plain concatenation. -/
def rTwoBlocks : Json :=
  .obj [("content", .arr
    [.obj [("type", .str "text"), ("text", .str "a")],
     .obj [("type", .str "text"), ("text", .str "b")]])]

/-- A backend value whose result field is present but empty while a
content field carries text, separating the claim's presence priority
from the source's truthiness priority. -/
def rEmptyResult : Json :=
  .obj [("result", .str ""), ("content", .str "x")]

/-- A content-block list containing a null entry: the source's filter
callback throws a TypeError on it. -/
def rNullBlock : Json :=
  .obj [("content", .arr [.null, .obj [("type", .str "text"), ("text", .str "a")]])]

/-- One assistant event of the backend's line protocol. -/
def assistantEventJson : Json :=
  .obj [("type", .str "assistant"),
        ("message", .obj [("content", .arr
          [.obj [("type", .str "text"), ("text", .str "hi")]])])]

/-- The full stdout text of a one-event stream: the event line with its
terminating newline. -/
def fullStdout : String := stringify assistantEventJson ++ "\n"

/-- The same stdout bytes cut mid-object into a first arrival chunk. -/
def halfChunk1 : String := fullStdout.take 20

/-- The remainder of the stdout bytes as the second arrival chunk. -/
def halfChunk2 : String := (fullStdout.toList.drop 20).asString

/-- A request whose max_tokens field is present but zero. -/
def reqMaxZero : ChatRequest :=
  { model := none, messages := [], max_tokens := some (.num 0), temperature := none }

/-- The empty-sequence request of claim C5. -/
def emptyReq : ChatRequest :=
  { model := none, messages := [], max_tokens := none, temperature := none }

/-
  Shared lemmas.
-/

set_option maxRecDepth 100000

/-- Extraction agrees with its guarded-candidate presentation. -/
theorem extract_eq_amended (r : Json) : extractContent r = extractContentAmendedSpec r := by
  cases r with
  | obj fs =>
    simp only [extractContent, extractContentAmendedSpec, amendedCandidates, firstTruthyGuarded]
    split_ifs with h1 h2 h3 h4
    · rfl
    · cases hc : jget (Json.obj fs) "content" <;> simp [contentBlocksText]
    · rfl
    · rfl
    · rfl
  | str s => rfl
  | null => rfl
  | bool b => rfl
  | num n => rfl
  | arr xs => rfl

/-- Extracted content is either truthy or exactly the empty string: the
translation never yields a falsy non-string content value. -/
theorem extract_truthy_or_empty (r : Json) :
    jsTruthy (extractContent r) = true ∨ extractContent r = .str "" := by
  cases r with
  | str s =>
    rcases eq_or_ne s "" with h | h
    · subst h; exact Or.inr rfl
    · exact Or.inl (by simp [extractContent, jsTruthy, h])
  | null => exact Or.inr rfl
  | bool b => exact Or.inr rfl
  | num n => exact Or.inr rfl
  | arr xs => exact Or.inr rfl
  | obj fs =>
    simp only [extractContent]
    split_ifs with h1 h2 h3 h4
    · exact Or.inl h1
    · cases hc : jget (Json.obj fs) "content" with
      | arr blocks =>
        rcases eq_or_ne (contentBlocksText blocks) "" with he | he
        · exact Or.inr (by simp [he])
        · exact Or.inl (by simp [jsTruthy, he])
      | null => rw [hc] at h2; exact absurd h2 (by simp [jsTruthy])
      | bool b => rw [hc] at h2; exact Or.inl (by simp [jsTruthy] at h2 ⊢; exact h2)
      | num n => rw [hc] at h2; exact Or.inl (by simp [jsTruthy] at h2 ⊢; exact h2)
      | str s => rw [hc] at h2; exact Or.inl (by simp [jsTruthy] at h2 ⊢; exact h2)
      | obj gs => exact Or.inl (by simp [jsTruthy])
    · exact Or.inl h3
    · exact Or.inl h4
    · exact Or.inr rfl

/-- The stop test of the Anthropic projection holds exactly of the stop
string. -/
theorem isStopFinish_iff (j : Json) : isStopFinish j = true ↔ j = .str "stop" := by
  cases j <;> simp [isStopFinish]

/-- The Anthropic projection reproduces the content of a response whose
content is truthy or the empty string. -/
theorem anthropic_text (o : OpenAiResponse)
    (h : jsTruthy o.content = true ∨ o.content = .str "") :
    (anthropicOfOpenAi o).text = o.content := by
  simp only [anthropicOfOpenAi]
  rcases h with h | h
  · simp [h]
  · rw [h]; simp [jsTruthy]

/-- Stop-reason correspondence of the Anthropic projection, both the
equivalence and the two-valued range. -/
theorem anthropic_stop (o : OpenAiResponse) :
    ((anthropicOfOpenAi o).stop_reason = "end_turn" ↔ o.finish_reason = .str "stop")
    ∧ ((anthropicOfOpenAi o).stop_reason = "end_turn"
       ∨ (anthropicOfOpenAi o).stop_reason = "max_tokens") := by
  simp only [anthropicOfOpenAi]
  by_cases h : isStopFinish o.finish_reason = true
  · rw [if_pos h]
    refine ⟨⟨fun _ => (isStopFinish_iff _).mp h, fun _ => rfl⟩, Or.inl rfl⟩
  · rw [if_neg h]
    refine ⟨⟨fun hh => absurd hh (by decide),
             fun hh => absurd ((isStopFinish_iff _).mpr hh) h⟩, Or.inr rfl⟩

/-- Token counts vanish when no usage object is present. -/
theorem tokens_absent (r : Json) (m rid : String) (t : Nat) (h : jfind r "usage" = none) :
    (convertToOpenAiFormat r m rid t).prompt_tokens = 0 ∧
    (convertToOpenAiFormat r m rid t).completion_tokens = 0 := by
  have h2 : jget r "usage" = Json.null := by simp [jget, h]
  constructor <;> (simp only [convertToOpenAiFormat, usageTokens]; rw [h2]; rfl)

/-- Unfolding of the throwing filter on a non-null head. -/
theorem filterTextTypesE_cons_ne (b : Json) (rest : List Json) (hb : b ≠ Json.null) :
    filterTextTypesE (b :: rest) =
      (filterTextTypesE rest).map (fun bs => if isTextType b then b :: bs else bs) := by
  cases b with
  | null => exact absurd rfl hb
  | bool v => rfl
  | num v => rfl
  | str v => rfl
  | arr v => rfl
  | obj v => rfl

/-- When the throwing filter returns, it returns the plain filter. -/
theorem filterTextTypesE_ok (l : List Json) (bs : List Json)
    (h : filterTextTypesE l = .ok bs) : bs = l.filter isTextType := by
  induction l generalizing bs with
  | nil =>
    simp only [filterTextTypesE] at h
    injection h with h2
    rw [← h2]
    rfl
  | cons b rest ih =>
    cases b
    case null => simp [filterTextTypesE] at h
    all_goals
      rw [filterTextTypesE_cons_ne _ rest (fun hh => Json.noConfusion hh)] at h
      cases hfr : filterTextTypesE rest with
      | error e => rw [hfr] at h; simp [Except.map] at h
      | ok bs2 =>
        rw [hfr] at h
        simp only [Except.map, Except.ok.injEq] at h
        rw [← h, ih bs2 hfr, List.filter_cons]

/-- The throwing filter returns on every list without a null entry. -/
theorem filterTextTypesE_no_null (l : List Json) (h : Json.null ∉ l) :
    filterTextTypesE l = .ok (l.filter isTextType) := by
  induction l with
  | nil => rfl
  | cons b rest ih =>
    have hb : b ≠ Json.null := by
      intro hh
      subst hh
      exact h (List.mem_cons_self _ _)
    have hrest : Json.null ∉ rest := fun hh => h (List.mem_cons_of_mem b hh)
    rw [filterTextTypesE_cons_ne b rest hb, ih hrest]
    simp [Except.map, List.filter_cons]

/-- The throwing filter throws on every list with a null entry. -/
theorem filterTextTypesE_null_mem (l : List Json) (h : Json.null ∈ l) :
    filterTextTypesE l = .error .typeError := by
  induction l with
  | nil => simp at h
  | cons b rest ih =>
    rcases List.mem_cons.mp h with hb | hrest
    · rw [← hb]; rfl
    · by_cases hbn : b = Json.null
      · rw [hbn]; rfl
      · rw [filterTextTypesE_cons_ne b rest hbn, ih hrest]; rfl

/-- When the error-aware extraction returns, it returns exactly what the
total extraction computes: the total model is the projection of the
source on its non-throwing domain. -/
theorem extractContentE_ok_agrees (r : Json) (res : Json)
    (h : extractContentE r = .ok res) : res = extractContent r := by
  cases r with
  | str s => simp only [extractContentE] at h; injection h with h2; rw [← h2]; rfl
  | null => simp [extractContentE] at h
  | bool b =>
    rw [show extractContentE (Json.bool b) = .ok (.str "") from rfl] at h
    injection h with h2; rw [← h2]; rfl
  | num n =>
    rw [show extractContentE (Json.num n) = .ok (.str "") from rfl] at h
    injection h with h2; rw [← h2]; rfl
  | arr xs =>
    rw [show extractContentE (Json.arr xs) = .ok (.str "") from rfl] at h
    injection h with h2; rw [← h2]; rfl
  | obj fs =>
    simp only [extractContentE] at h
    simp only [extractContent]
    split_ifs at h with h1 h2 h3 h4
    · rw [if_pos h1]
      injection h with hx
      rw [hx]
    · rw [if_neg h1, if_pos h2]
      cases hc : jget (Json.obj fs) "content" with
      | arr blocks =>
        rw [hc] at h
        have hm : (filterTextTypesE blocks).map
            (fun bs => Json.str (String.intercalate "\n"
              (bs.map (fun b => jsJoinElem (jget b "text"))))) = Except.ok res := h
        show res = Json.str (contentBlocksText blocks)
        cases hfr : filterTextTypesE blocks with
        | error e => rw [hfr] at hm; simp [Except.map] at hm
        | ok bs =>
          rw [hfr] at hm
          simp only [Except.map, Except.ok.injEq] at hm
          rw [← hm, filterTextTypesE_ok blocks bs hfr]
          rfl
      | null => rw [hc] at h2; simp [jsTruthy] at h2
      | bool v =>
        rw [hc] at h
        show res = Json.bool v
        injection h with hx; rw [hx]
      | num v =>
        rw [hc] at h
        show res = Json.num v
        injection h with hx; rw [hx]
      | str v =>
        rw [hc] at h
        show res = Json.str v
        injection h with hx; rw [hx]
      | obj gs =>
        rw [hc] at h
        show res = Json.obj gs
        injection h with hx; rw [hx]
    · rw [if_neg h1, if_neg h2, if_pos h3]
      injection h with hx; rw [hx]
    · rw [if_neg h1, if_neg h2, if_neg h3, if_pos h4]
      injection h with hx; rw [hx]
    · rw [if_neg h1, if_neg h2, if_neg h3, if_neg h4]
      injection h with hx; rw [hx]

/-- The error-aware extraction returns on every object whose content
field, when it is a block list, has no null entry. -/
theorem extractContentE_obj_total (fs : List (String × Json))
    (h : ∀ blocks, jfind (Json.obj fs) "content" = some (.arr blocks) →
          Json.null ∉ blocks) :
    ∃ res, extractContentE (Json.obj fs) = .ok res := by
  simp only [extractContentE]
  by_cases h1 : jsTruthy (jget (Json.obj fs) "result") = true
  · exact ⟨_, by rw [if_pos h1]⟩
  · rw [if_neg h1]
    by_cases h2 : jsTruthy (jget (Json.obj fs) "content") = true
    · rw [if_pos h2]
      cases hc : jget (Json.obj fs) "content" with
      | arr blocks =>
        have hf : jfind (Json.obj fs) "content" = some (.arr blocks) := by
          cases hf2 : jfind (Json.obj fs) "content" with
          | none => rw [jget, hf2] at hc; simp [Option.getD] at hc
          | some v => rw [jget, hf2] at hc; simp [Option.getD] at hc; rw [hc]
        refine ⟨Json.str (String.intercalate "\n"
          ((blocks.filter isTextType).map (fun b => jsJoinElem (jget b "text")))), ?_⟩
        show (filterTextTypesE blocks).map
            (fun bs => Json.str (String.intercalate "\n"
              (bs.map (fun b => jsJoinElem (jget b "text"))))) = Except.ok _
        rw [filterTextTypesE_no_null blocks (h blocks hf)]
        rfl
      | null => rw [hc] at h2; simp [jsTruthy] at h2
      | bool v => exact ⟨_, rfl⟩
      | num v => exact ⟨_, rfl⟩
      | str v => exact ⟨_, rfl⟩
      | obj gs => exact ⟨_, rfl⟩
    · rw [if_neg h2]
      by_cases h3 : jsTruthy (jget (Json.obj fs) "text") = true
      · rw [if_pos h3]; exact ⟨_, rfl⟩
      · rw [if_neg h3]
        by_cases h4 : jsTruthy (jget (jget (Json.obj fs) "message") "content") = true
        · rw [if_pos h4]; exact ⟨_, rfl⟩
        · rw [if_neg h4]; exact ⟨_, rfl⟩

/-- The error-aware extraction throws on every object whose scanned
content-block list contains a null entry. -/
theorem extractContentE_null_block (fs : List (String × Json)) (blocks : List Json)
    (h1 : jsTruthy (jget (Json.obj fs) "result") = false)
    (h2 : jget (Json.obj fs) "content" = .arr blocks)
    (h3 : Json.null ∈ blocks) :
    extractContentE (Json.obj fs) = .error .typeError := by
  simp only [extractContentE]
  rw [if_neg (by rw [h1]; exact fun hh => Bool.noConfusion hh)]
  rw [if_pos (by rw [h2]; rfl)]
  rw [h2]
  show (filterTextTypesE blocks).map
      (fun bs => Json.str (String.intercalate "\n"
        (bs.map (fun b => jsJoinElem (jget b "text"))))) = Except.error JsError.typeError
  rw [filterTextTypesE_null_mem blocks h3]
  rfl

/-- When extraction returns, the error-aware translation returns exactly
the response the total translation computes. -/
theorem convertToOpenAiFormatE_ok (r : Json) (m rid : String) (t : Nat) (res : Json)
    (h : extractContentE r = .ok res) :
    convertToOpenAiFormatE r m rid t = .ok (convertToOpenAiFormat r m rid t) := by
  have hagree : res = extractContent r := extractContentE_ok_agrees r res h
  simp only [convertToOpenAiFormatE]
  rw [h, hagree]
  rfl

/-- Data frames are never the sentinel. -/
theorem countP_isDone_mapData (l : List StreamChunk) :
    (l.map Frame.data).countP isDone = 0 := by
  induction l with
  | nil => rfl
  | cons c rest ih => simp [List.countP_cons, isDone, ih]

/-- A serialized object always opens with a brace. -/
theorem stringify_obj_data_head (fs : List (String × Json)) :
    ((stringify (Json.obj fs)).data).head? = some lbrace := by
  simp [stringify, String.data_append, String.singleton, String.data_push]

/-- The serialized settings blob never collides with a string opening
with a dash, such as a CLI flag. -/
theorem stringify_settings_ne (req : ChatRequest) (s : String)
    (hs : s.data.head? = some '-') :
    stringify (settingsObject req) ≠ s := by
  intro h
  have h1 : (stringify (settingsObject req)).data.head? = some lbrace :=
    stringify_obj_data_head _
  rw [h, hs] at h1
  exact absurd h1 (by decide)

/-
  Claim theorems.
-/

/-- C1 (amended): the buffered response translation extracts content by
truthiness priority — a truthy result field first, else a truthy content
field (verbatim for a string, text-typed blocks joined with a newline
separator for a list), else a truthy text field, else a truthy nested
message content, else the empty string — and, when it returns, its
result follows the guarded-candidate presentation of that priority.
Extraction raises a TypeError exactly when the backend value is null or
when a scanned content-block list contains a null entry, and returns on
every other input.  Token counts default to zero without a usage
object, total tokens are the sum of input and output tokens, the finish
reason defaults to stop when the backend provides none, and the
arithmetic scenario produces content 4 with finish reason stop and
token counts 5, 1, 6 from the parsed backend output, without error. -/
theorem C1_buffered_translation_amended :
    (∀ r res, extractContentE r = .ok res →
        res = extractContent r ∧ res = extractContentAmendedSpec r)
    ∧ extractContentE Json.null = .error JsError.typeError
    ∧ (∀ s, extractContentE (.str s) = .ok (.str s))
    ∧ (∀ b, extractContentE (.bool b) = .ok (.str ""))
    ∧ (∀ n, extractContentE (.num n) = .ok (.str ""))
    ∧ (∀ xs, extractContentE (.arr xs) = .ok (.str ""))
    ∧ (∀ fs, (∀ blocks, jfind (Json.obj fs) "content" = some (.arr blocks) →
          Json.null ∉ blocks) → ∃ res, extractContentE (Json.obj fs) = .ok res)
    ∧ (∀ fs blocks, jsTruthy (jget (Json.obj fs) "result") = false →
        jget (Json.obj fs) "content" = .arr blocks → Json.null ∈ blocks →
        extractContentE (Json.obj fs) = .error JsError.typeError)
    ∧ (∀ r m rid t res, extractContentE r = .ok res →
        convertToOpenAiFormatE r m rid t = .ok (convertToOpenAiFormat r m rid t))
    ∧ (∀ m rid t, convertToOpenAiFormatE Json.null m rid t = .error JsError.typeError)
    ∧ (∀ r m rid t, (convertToOpenAiFormat r m rid t).total_tokens =
        (convertToOpenAiFormat r m rid t).prompt_tokens +
        (convertToOpenAiFormat r m rid t).completion_tokens)
    ∧ (∀ r m rid t, jfind r "usage" = none →
        (convertToOpenAiFormat r m rid t).prompt_tokens = 0 ∧
        (convertToOpenAiFormat r m rid t).completion_tokens = 0)
    ∧ (∀ r m rid t, jfind r "stop_reason" = none →
        (convertToOpenAiFormat r m rid t).finish_reason = .str "stop")
    ∧ (convertToOpenAiFormatE rScen "sonnet" "rid" 0 =
        .ok (convertToOpenAiFormat rScen "sonnet" "rid" 0)
       ∧ (convertToOpenAiFormat rScen "sonnet" "rid" 0).content = .str "4"
       ∧ (convertToOpenAiFormat rScen "sonnet" "rid" 0).finish_reason = .str "stop"
       ∧ (convertToOpenAiFormat rScen "sonnet" "rid" 0).prompt_tokens = 5
       ∧ (convertToOpenAiFormat rScen "sonnet" "rid" 0).completion_tokens = 1
       ∧ (convertToOpenAiFormat rScen "sonnet" "rid" 0).total_tokens = 6
       ∧ closeHandlerResult 0 (stringify rScen) "" = .ok rScen) := by
  refine ⟨?_, rfl, fun s => rfl, fun b => rfl, fun n => rfl, fun xs => rfl,
          extractContentE_obj_total, extractContentE_null_block,
          convertToOpenAiFormatE_ok, fun m rid t => rfl, fun r m rid t => rfl,
          tokens_absent, ?_, rfl, rfl, rfl, rfl, rfl, rfl, rfl⟩
  · intro r res h
    have hagree := extractContentE_ok_agrees r res h
    exact ⟨hagree, hagree.trans (extract_eq_amended r)⟩
  · intro r m rid t h
    simp [convertToOpenAiFormat, jget, h, jsTruthy]

/-- C1 witness: on the arithmetic scenario extraction returns 4 without
error and the full translation returns the total model's response; a
singleton text-block list extracts without error; the list with a null
entry raises the TypeError; and a bare number translates with zero
token counts and the default finish reason. -/
theorem C1_buffered_translation_witness :
    Json.str "4" = extractContent rScen
    ∧ convertToOpenAiFormatE rScen "sonnet" "rid" 0 =
        .ok (convertToOpenAiFormat rScen "sonnet" "rid" 0)
    ∧ (∃ res, extractContentE
        (Json.obj [("content", Json.arr [Json.obj [("type", Json.str "text"),
          ("text", Json.str "a")]])]) = .ok res)
    ∧ extractContentE rNullBlock = .error JsError.typeError
    ∧ (convertToOpenAiFormat (Json.num 3) "m" "i" 0).prompt_tokens = 0
    ∧ (convertToOpenAiFormat (Json.num 3) "m" "i" 0).finish_reason = .str "stop" :=
  ⟨(C1_buffered_translation_amended.1 rScen (.str "4") rfl).1,
   C1_buffered_translation_amended.2.2.2.2.2.2.2.2.1 rScen "sonnet" "rid" 0 (.str "4") rfl,
   C1_buffered_translation_amended.2.2.2.2.2.2.1
     [("content", Json.arr [Json.obj [("type", Json.str "text"),
      ("text", Json.str "a")]])]
     (by
       intro blocks hf
       simp [jfind] at hf
       rw [← hf]
       intro hmem
       simp at hmem),
   C1_buffered_translation_amended.2.2.2.2.2.2.2.1
     [("content", Json.arr [Json.null,
      Json.obj [("type", Json.str "text"), ("text", Json.str "a")]])]
     [Json.null, Json.obj [("type", Json.str "text"), ("text", Json.str "a")]]
     rfl rfl (List.mem_cons_self _ _),
   (C1_buffered_translation_amended.2.2.2.2.2.2.2.2.2.2.2.1 (Json.num 3) "m" "i" 0 rfl).1,
   C1_buffered_translation_amended.2.2.2.2.2.2.2.2.2.2.2.2.1 (Json.num 3) "m" "i" 0 rfl⟩

/-- C1 counterexample: on two text blocks the code joins with a newline
separator while the claim demands plain concatenation; on a present but
empty result field the code falls through to the content field while
the claim's presence priority stops at result; and on a null backend
value or a content-block list with a null entry the code raises a
TypeError while the claim says extraction never errors. -/
theorem C1_extraction_counterexample :
    extractContent rTwoBlocks = .str "a\nb"
    ∧ extractContentClaimed rTwoBlocks = .str "ab"
    ∧ extractContent rTwoBlocks ≠ extractContentClaimed rTwoBlocks
    ∧ extractContent rEmptyResult = .str "x"
    ∧ extractContentClaimed rEmptyResult = .str ""
    ∧ extractContent rEmptyResult ≠ extractContentClaimed rEmptyResult
    ∧ extractContentE Json.null = .error JsError.typeError
    ∧ extractContentE rNullBlock = .error JsError.typeError
    ∧ extractContentClaimed rNullBlock = .str "a" := by
  refine ⟨rfl, rfl, ?_, rfl, rfl, ?_, rfl, rfl, rfl⟩
  · intro h
    rw [show extractContent rTwoBlocks = .str "a\nb" from rfl,
        show extractContentClaimed rTwoBlocks = .str "ab" from rfl] at h
    injection h with h2
    exact absurd h2 (by decide)
  · intro h
    rw [show extractContent rEmptyResult = .str "x" from rfl,
        show extractContentClaimed rEmptyResult = .str "" from rfl] at h
    injection h with h2
    exact absurd h2 (by decide)

/-- C2: the streaming stdout handler splits each arriving chunk on its
own, with no buffering of a partial trailing line; the same stdout text
delivered whole forwards the assistant event, while delivered cut
mid-line both pieces fail to parse and the event is dropped, so the
forwarded chunks depend on where the chunk boundaries fall. -/
theorem C2_chunk_boundary_dependence :
    halfChunk1 ++ halfChunk2 = fullStdout
    ∧ streamedChunks "r" "m" 0 [fullStdout] =
        [{ id := "chatcmpl-r", object := "chat.completion.chunk", created := 0,
           model := "m", deltaContent := "hi", finish_reason := .null }]
    ∧ streamedChunks "r" "m" 0 [halfChunk1, halfChunk2] = []
    ∧ streamedChunks "r" "m" 0 [halfChunk1, halfChunk2] ≠
        streamedChunks "r" "m" 0 [fullStdout] := by
  refine ⟨rfl, rfl, rfl, ?_⟩
  intro h
  rw [show streamedChunks "r" "m" 0 [halfChunk1, halfChunk2] = [] from rfl,
      show streamedChunks "r" "m" 0 [fullStdout] =
        [{ id := "chatcmpl-r", object := "chat.completion.chunk", created := 0,
           model := "m", deltaContent := "hi", finish_reason := .null }] from rfl] at h
  exact List.noConfusion h

/-- C3: every streaming invocation whose subprocess exits writes exactly
one sentinel frame, rendered as the literal DONE line, as the last
frame; a non-zero exit status adds exactly one error-shaped frame
carrying the exit code and stderr immediately before the sentinel; and a
stream with zero forwarded assistant events exiting zero is the sentinel
alone. -/
theorem C3_sentinel_frames (requestId model : String) (created : Nat)
    (chunks : List String) (code : Int) (stderrData : String) :
    (sessionFrames requestId model created chunks code stderrData =
      (streamedChunks requestId model created chunks).map Frame.data
      ++ (if code ≠ 0 then [Frame.errorData (executionErrorPayload code stderrData)] else [])
      ++ [Frame.done])
    ∧ ((sessionFrames requestId model created chunks code stderrData).countP isDone = 1)
    ∧ ((sessionFrames requestId model created chunks code stderrData).getLast? =
        some Frame.done)
    ∧ (code = 0 → ∀ f ∈ sessionFrames requestId model created chunks code stderrData,
        isErrorFrame f = false)
    ∧ (code ≠ 0 → ∃ ds, sessionFrames requestId model created chunks code stderrData =
        ds ++ [Frame.errorData (executionErrorPayload code stderrData), Frame.done]
        ∧ ∀ f ∈ ds, isErrorFrame f = false ∧ isDone f = false)
    ∧ (code = 0 → streamedChunks requestId model created chunks = [] →
        sessionFrames requestId model created chunks code stderrData = [Frame.done])
    ∧ renderFrame Frame.done = "data: [DONE]\n\n" := by
  refine ⟨?_, ?_, ?_, ?_, ?_, ?_, rfl⟩
  · simp [sessionFrames, closeHandlerFrames, List.append_assoc]
  · by_cases hc : code = 0 <;>
      simp [sessionFrames, closeHandlerFrames, hc, List.countP_append,
            countP_isDone_mapData, List.countP_cons, isDone]
  · have hshape : sessionFrames requestId model created chunks code stderrData =
        ((streamedChunks requestId model created chunks).map Frame.data
         ++ (if code ≠ 0 then [Frame.errorData (executionErrorPayload code stderrData)] else []))
        ++ [Frame.done] := by
      simp [sessionFrames, closeHandlerFrames, List.append_assoc]
    rw [hshape, List.getLast?_concat]
  · intro hc f hf
    simp [sessionFrames, closeHandlerFrames, hc] at hf
    rcases hf with ⟨c, _, rfl⟩ | rfl <;> rfl
  · intro hc
    refine ⟨(streamedChunks requestId model created chunks).map Frame.data, ?_, ?_⟩
    · simp [sessionFrames, closeHandlerFrames, hc]
    · intro f hf
      rcases List.mem_map.mp hf with ⟨c, _, rfl⟩
      exact ⟨rfl, rfl⟩
  · intro hc h0
    simp [sessionFrames, closeHandlerFrames, hc, h0]

/-- C3 witness: an empty stream exiting zero is the sentinel alone with
no error frame, and a failing stream carries its error frame directly
before the sentinel. -/
theorem C3_sentinel_frames_witness :
    (∀ f ∈ sessionFrames "r" "m" 0 [] 0 "", isErrorFrame f = false)
    ∧ sessionFrames "r" "m" 0 [] 0 "" = [Frame.done]
    ∧ (∃ ds, sessionFrames "r" "m" 0 [] 1 "boom" =
        ds ++ [Frame.errorData (executionErrorPayload 1 "boom"), Frame.done]
        ∧ ∀ f ∈ ds, isErrorFrame f = false ∧ isDone f = false) :=
  ⟨(C3_sentinel_frames "r" "m" 0 [] 0 "").2.2.2.1 rfl,
   (C3_sentinel_frames "r" "m" 0 [] 0 "").2.2.2.2.2.1 rfl rfl,
   (C3_sentinel_frames "r" "m" 0 [] 1 "boom").2.2.2.2.1 (by decide)⟩

/-- C4 (amended): timeout expiry follows the graceful-then-forceful
escalation path, sending the forceful kill exactly when the subprocess
is still running after the fixed 5000 ms grace, and rejects with a
message carrying the word timeout; client disconnect sends one graceful
signal only and never escalates to a forceful kill. -/
theorem C4_termination_paths_amended :
    timeoutHandlerSignals false false = [Signal.sigterm, Signal.sigkill]
    ∧ timeoutHandlerSignals false false = escalationPathSpec true
    ∧ timeoutHandlerSignals false true = [Signal.sigterm]
    ∧ timeoutHandlerSignals false true = escalationPathSpec false
    ∧ (∀ g, timeoutHandlerSignals true g = [])
    ∧ (∀ k, Signal.sigkill ∉ disconnectHandlerSignals k)
    ∧ disconnectHandlerSignals false = [Signal.sigterm]
    ∧ (∀ t, timeoutRejection false t =
        some ("Claude process timeout after " ++ toString t ++ "ms")
        ∧ ∃ msg, timeoutRejection false t = some msg ∧ strContains msg "timeout")
    ∧ timeoutGraceMs = 5000 := by
  refine ⟨rfl, rfl, rfl, rfl, fun g => rfl, fun k => ?_, rfl, fun t => ⟨rfl, ?_⟩, rfl⟩
  · cases k <;> decide
  · refine ⟨"Claude process timeout after " ++ toString t ++ "ms", rfl,
      ⟨"Claude process ".data, (" after " ++ toString t ++ "ms").data, ?_⟩⟩
    simp [String.data_append]

/-- C4 counterexample: the disconnect trigger with a live process emits
only the graceful signal, not the escalation path the claim asserts for
a process still running after the grace period. -/
theorem C4_disconnect_no_escalation :
    disconnectHandlerSignals false ≠ escalationPathSpec true
    ∧ Signal.sigkill ∉ disconnectHandlerSignals false
    ∧ Signal.sigkill ∈ escalationPathSpec true := by
  refine ⟨?_, by decide, by decide⟩
  intro h
  have hl := congrArg List.length h
  exact absurd hl (by decide)

/-- C5 (amended): the empty turn sequence is rejected with the
invalid_messages code by the upstream request validator; the execution
layer itself performs no defensive check, and its pre-spawn phase on the
empty sequence succeeds with an empty stdin payload in both input
modes. -/
theorem C5_empty_sequence_amended :
    validateChatCompletionRequest (some []) = .rejected "invalid_messages"
    ∧ validateChatCompletionRequest none = .rejected "invalid_messages"
    ∧ (∀ cfg i o, executorPreSpawn cfg emptyReq i o =
        .ok (buildClaudeArgs cfg emptyReq i o, ""))
    ∧ prepareInput emptyReq "text" = ""
    ∧ prepareInput emptyReq "stream-json" = "" := by
  refine ⟨rfl, rfl, ?_, rfl, rfl⟩
  intro cfg i o
  by_cases hi : i = "stream-json" <;>
    (simp [executorPreSpawn, prepareInput, prepareInputText, prepareInputStreamJson,
           emptyReq, hi]) <;> rfl

/-- C5 counterexample: the executor's pre-spawn phase on the empty
sequence returns its argument vector and empty payload normally, so no
InvalidRequestError arises inside the execution layer before the spawn. -/
theorem C5_no_executor_rejection :
    executorPreSpawn cfg0 emptyReq "text" "json" =
      .ok (["--print", "--dangerously-skip-permissions", "--output-format", "json",
            "--model", "sonnet"], "") := rfl

/-- C6: a buffered run whose subprocess exits with a non-zero status
rejects with an error whose message carries the exit code and the
captured stderr text, falling back to the stdout text when stderr is
empty; exit code 1 with stderr rate limited yields exactly that
message. -/
theorem C6_nonzero_exit_error :
    (∀ code stdout stderr, code ≠ 0 →
      ∃ e, closeHandlerResult code stdout stderr = .error e
        ∧ strContains e.message (toString code)
        ∧ (stderr ≠ "" → strContains e.message stderr)
        ∧ (stderr = "" → stdout ≠ "" → strContains e.message stdout))
    ∧ closeHandlerResult 1 "" "rate limited" =
        .error ⟨"Claude process exited with code 1: rate limited"⟩
    ∧ strContains "Claude process exited with code 1: rate limited" "rate limited" := by
  refine ⟨?_, rfl, ⟨"Claude process exited with code 1: ".data, [], by rfl⟩⟩
  intro code stdout stderr hc
  refine ⟨⟨"Claude process exited with code " ++ toString code ++ ": " ++
           (if stderr ≠ "" then stderr else if stdout ≠ "" then stdout
            else "Unknown error")⟩, ?_, ?_, ?_, ?_⟩
  · simp [closeHandlerResult, hc]
  · exact ⟨"Claude process exited with code ".data,
           (": " ++ (if stderr ≠ "" then stderr else if stdout ≠ "" then stdout
            else "Unknown error")).data,
           by simp [String.data_append]⟩
  · intro hs
    refine ⟨("Claude process exited with code " ++ toString code ++ ": ").data, [], ?_⟩
    simp [String.data_append, hs]
  · intro hs hout
    refine ⟨("Claude process exited with code " ++ toString code ++ ": ").data, [], ?_⟩
    simp [String.data_append, hs, hout]

/-- C6 witness: exit code 2 with nonempty stderr produces an error whose
message carries the code and the stderr text. -/
theorem C6_nonzero_exit_error_witness :
    ∃ e, closeHandlerResult 2 "out" "err" = .error e
      ∧ strContains e.message (toString (2 : Int))
      ∧ ("err" ≠ "" → strContains e.message "err")
      ∧ ("err" = "" → "out" ≠ "" → strContains e.message "out") :=
  C6_nonzero_exit_error.1 2 "out" "err" (by decide)

/-- C7 (amended): the argument vector is a deterministic function of
model, max_tokens, temperature and the two formats; it always carries
the non-interactive, permission-bypass and output-format flags; the
verbose flag appears exactly for the stream-json output format; and a
single settings blob flag appears exactly when max_tokens is set to a
truthy value or temperature is set, serializing both together. -/
theorem C7_argument_vector_amended :
    (∀ cfg r1 r2 i o, r1.model = r2.model → r1.max_tokens = r2.max_tokens →
        r1.temperature = r2.temperature →
        buildClaudeArgs cfg r1 i o = buildClaudeArgs cfg r2 i o)
    ∧ (∀ cfg req i o, "--print" ∈ buildClaudeArgs cfg req i o
        ∧ "--dangerously-skip-permissions" ∈ buildClaudeArgs cfg req i o
        ∧ "--output-format" ∈ buildClaudeArgs cfg req i o)
    ∧ (∀ cfg req i o, settingsFlagCondition req = true →
        ∃ pre, buildClaudeArgs cfg req i o =
          pre ++ ["--settings", stringify (settingsObject req)])
    ∧ (∀ cfg req i o, i = "text" ∨ i = "stream-json" →
        o = "text" ∨ o = "json" ∨ o = "stream-json" →
        effectiveModel cfg req.model ≠ "--verbose" →
        effectiveModel cfg req.model ≠ "--settings" →
        ("--verbose" ∈ buildClaudeArgs cfg req i o ↔ o = "stream-json")
        ∧ ("--settings" ∈ buildClaudeArgs cfg req i o ↔ settingsFlagCondition req = true)) := by
  refine ⟨?_, ?_, ?_, ?_⟩
  · intro cfg r1 r2 i o h1 h2 h3
    simp [buildClaudeArgs, settingsFlagCondition, settingsObject, effectiveModel,
          jsTruthyOpt, h1, h2, h3]
  · intro cfg req i o
    refine ⟨?_, ?_, ?_⟩ <;> simp [buildClaudeArgs]
  · intro cfg req i o hcnd
    refine ⟨(((["--print", "--dangerously-skip-permissions"]
        ++ (if i ≠ "text" then ["--input-format", i] else []))
        ++ ["--output-format", o])
        ++ (if o = "stream-json" then ["--verbose"] else []))
        ++ ["--model", effectiveModel cfg req.model], ?_⟩
    simp [buildClaudeArgs, hcnd]
  · intro cfg req i o hi ho hm1 hm2
    have hb1 : stringify (settingsObject req) ≠ "--verbose" :=
      stringify_settings_ne req _ (by decide)
    have hb2 : stringify (settingsObject req) ≠ "--settings" :=
      stringify_settings_ne req _ (by decide)
    rcases hi with rfl | rfl <;> rcases ho with rfl | rfl | rfl <;>
      by_cases hcnd : settingsFlagCondition req = true <;>
      constructor <;>
      simp [buildClaudeArgs, hcnd, Ne.symm hm1, Ne.symm hm2, Ne.symm hb1, Ne.symm hb2]

/-- C7 witness: the vector ignores the message list, carries the verbose
flag for stream-json output, and ends with the settings blob when
max_tokens is a truthy value. -/
theorem C7_argument_vector_witness :
    buildClaudeArgs cfg0
      { model := none, messages := [⟨"user", "a"⟩], max_tokens := none, temperature := none }
      "text" "json" =
    buildClaudeArgs cfg0
      { model := none, messages := [], max_tokens := none, temperature := none }
      "text" "json"
    ∧ ("--verbose" ∈ buildClaudeArgs cfg0
        { model := none, messages := [], max_tokens := some (.num 100), temperature := none }
        "text" "stream-json")
    ∧ (∃ pre, buildClaudeArgs cfg0
        { model := none, messages := [], max_tokens := some (.num 100), temperature := none }
        "text" "stream-json" =
        pre ++ ["--settings", stringify (settingsObject
          { model := none, messages := [], max_tokens := some (.num 100),
            temperature := none })]) :=
  ⟨C7_argument_vector_amended.1 cfg0 _ _ "text" "json" rfl rfl rfl,
   ((C7_argument_vector_amended.2.2.2 cfg0 _ "text" "stream-json" (Or.inl rfl)
      (Or.inr (Or.inr rfl)) (by decide) (by decide)).1).mpr rfl,
   C7_argument_vector_amended.2.2.1 cfg0 _ "text" "stream-json" rfl⟩

/-- C7 counterexample: a request whose max_tokens field is present with
the value zero is set in the claim's sense, yet the vector carries no
settings flag, because the source tests JS truthiness rather than
presence. -/
theorem C7_settings_truthiness_counterexample :
    reqMaxZero.max_tokens.isSome = true
    ∧ "--settings" ∉ buildClaudeArgs cfg0 reqMaxZero "text" "json" := by
  refine ⟨rfl, ?_⟩
  decide

/-- C8: for every backend output, the OpenAI-shaped response and its
Anthropic-shaped projection report identical content, the Anthropic
stop_reason is end_turn exactly when the OpenAI finish_reason is stop,
and every other finish_reason maps to max_tokens. -/
theorem C8_dual_projections (r : Json) (m rid : String) (t : Nat) :
    (anthropicOfOpenAi (convertToOpenAiFormat r m rid t)).text =
      (convertToOpenAiFormat r m rid t).content
    ∧ ((anthropicOfOpenAi (convertToOpenAiFormat r m rid t)).stop_reason = "end_turn"
        ↔ (convertToOpenAiFormat r m rid t).finish_reason = .str "stop")
    ∧ ((anthropicOfOpenAi (convertToOpenAiFormat r m rid t)).stop_reason = "end_turn"
       ∨ (anthropicOfOpenAi (convertToOpenAiFormat r m rid t)).stop_reason = "max_tokens") :=
  ⟨anthropic_text _ (by simpa [convertToOpenAiFormat] using extract_truthy_or_empty r),
   (anthropic_stop _).1, (anthropic_stop _).2⟩

/-- C9 (amended): conversion is pure given the clock reading: two runs
observing the same wall-clock second are identical, and two runs at any
times agree on every field except created. -/
theorem C9_conversion_determinism_amended (r : Json) (m rid : String) (t1 t2 : Nat) :
    (t1 / 1000 = t2 / 1000 →
      convertToOpenAiFormat r m rid t1 = convertToOpenAiFormat r m rid t2)
    ∧ dropCreated (convertToOpenAiFormat r m rid t1) =
        dropCreated (convertToOpenAiFormat r m rid t2) := by
  constructor
  · intro h
    simp [convertToOpenAiFormat, h]
  · rfl

/-- C9 witness: two conversions inside the same second coincide. -/
theorem C9_conversion_determinism_witness :
    convertToOpenAiFormat rScen "sonnet" "rid" 100 =
      convertToOpenAiFormat rScen "sonnet" "rid" 300 :=
  (C9_conversion_determinism_amended rScen "sonnet" "rid" 100 300).1 rfl

/-- C9 counterexample: rerunning the conversion on the same backend
output across a second boundary changes the created field, so the two
results are not byte-identical. -/
theorem C9_created_timestamp_counterexample :
    convertToOpenAiFormat rScen "sonnet" "rid" 999 ≠
      convertToOpenAiFormat rScen "sonnet" "rid" 1000 := by
  intro h
  have hc := congrArg OpenAiResponse.created h
  exact absurd hc (by decide)

/-- C10: both executors build the text payload identically: system turns
get the System label, user turns pass verbatim, assistant turns get the
Assistant label, turns joined with one blank line; a turn with any other
role contributes nothing to the payload in either executor and never
causes an error. -/
theorem C10_text_mode_roles :
    (∀ ms, prepareInputText ms = convertMessagesToText ms)
    ∧ (∀ req, prepareInput req "text" = prepareInputText req.messages)
    ∧ (∀ xs ys r c, r ≠ "system" → r ≠ "user" → r ≠ "assistant" →
        prepareInputText (xs ++ ⟨r, c⟩ :: ys) = prepareInputText (xs ++ ys)
        ∧ convertMessagesToText (xs ++ ⟨r, c⟩ :: ys) = convertMessagesToText (xs ++ ys))
    ∧ (∀ c, prepareInputText [⟨"system", c⟩] = "System: " ++ c)
    ∧ (∀ c, prepareInputText [⟨"user", c⟩] = c)
    ∧ (∀ c, prepareInputText [⟨"assistant", c⟩] = "Assistant: " ++ c)
    ∧ (∀ c1 c2, prepareInputText [⟨"user", c1⟩, ⟨"user", c2⟩] = c1 ++ "\n\n" ++ c2) := by
  have hnone : ∀ r c, r ≠ "system" → r ≠ "user" → r ≠ "assistant" →
      renderTextTurn ⟨r, c⟩ = none := by
    intro r c h1 h2 h3
    simp [renderTextTurn, h1, h2, h3]
  refine ⟨fun ms => rfl, fun req => rfl, ?_, fun c => rfl, fun c => rfl, fun c => rfl,
          fun c1 c2 => rfl⟩
  intro xs ys r c h1 h2 h3
  constructor
  · simp [prepareInputText, List.filterMap_append, List.filterMap_cons, hnone r c h1 h2 h3]
  · have hsn : renderStreamingTurn ⟨r, c⟩ = none := hnone r c h1 h2 h3
    simp [convertMessagesToText, List.filterMap_append, List.filterMap_cons, hsn]

/-- C10 witness: a tool-role turn in the middle of a sequence is omitted
from the payload. -/
theorem C10_text_mode_roles_witness :
    prepareInputText ([⟨"user", "x"⟩] ++ ⟨"tool", "y"⟩ :: [⟨"assistant", "z"⟩]) =
      prepareInputText ([⟨"user", "x"⟩] ++ [⟨"assistant", "z"⟩]) :=
  (C10_text_mode_roles.2.2.1 [⟨"user", "x"⟩] [⟨"assistant", "z"⟩] "tool" "y"
      (by decide) (by decide) (by decide)).1

end ClaudeCodeApi
